import Mathlib

/-!
# Verification of the Insidr cross-chain bridge contracts

Shallow embedding of the two contracts in this repository:

* `src/contracts/polkadot/polkadot_bridge_complete.rs` — the Mint Ledger,
  an ink! contract (`mod polkadot_bridge_complete`).
* `src/contracts/stellar/stellar_bridge_complete.rs` — the Lock Ledger,
  a Soroban contract (`StellarBridgeComplete`).

Modelling conventions:

* `u128` quantities are `Nat` together with explicit `% 2 ^ 128` where the
  source performs an unchecked operation that can wrap, and the
  `checked_add` / `checked_sub` operations return `Option Nat` exactly as in
  Rust.  `i128` quantities (Stellar side) are `Int` with explicit wrapping
  (`wrapI128`) at each unchecked operation.  `u64` timestamps are `Nat` with
  explicit `% 2 ^ 64` on the one unchecked addition that occurs.
* 32-byte digests (`[u8; 32]` / `BytesN<32>`) are `List Nat`; `AccountId` /
  `Address` values are `Nat`; the Blake2x256 hash used by
  `hash_recipient` is an external host primitive and is passed in as an
  opaque function parameter `hashRecipient`.
* ink!'s `Mapping` and Soroban's persistent storage are association lists
  (`SMap`) with last-insert-wins lookup, mirroring key-value stores.
* Entry points are explicit state-passing functions.  On the Polkadot side a
  message returning `Result::Err` makes the host (ink! >= 4 / pallet
  contracts) set the REVERT flag, discarding every storage write of the
  call; on the Soroban side every failure in the source is a `panic!`,
  which traps and likewise rolls the transaction back.  Both are therefore
  modelled as `Except`: an `error` result carries no state and the caller's
  state is unchanged.  For the Polkadot messages whose bodies write storage
  before a possible late error, the sequential body semantics is kept in a
  separate `*_body` function returning the partially mutated state alongside
  the error, and the message-level function applies the host revert to it.
-/

namespace Insidr

/-! ## Machine integers -/

/-- The constant `2 ^ 128`, the modulus of `u128` / `i128` arithmetic. -/
def U128_MOD : Nat := 2 ^ 128

/-- The constant `2 ^ 64`, the modulus of `u64` arithmetic. -/
def U64_MOD : Nat := 2 ^ 64

/-- Rust `u128::checked_add`. -/
def checkedAdd128 (a b : Nat) : Option Nat :=
  if a + b < U128_MOD then some (a + b) else none

/-- Rust `u128::checked_sub`. -/
def checkedSub128 (a b : Nat) : Option Nat :=
  if b ≤ a then some (a - b) else none

/-- Wrapping (release-profile) `i128` arithmetic: normalise an integer into
`[-2 ^ 127, 2 ^ 127)`. -/
def wrapI128 (x : Int) : Int :=
  (x + 2 ^ 127) % (2 ^ 128) - 2 ^ 127

/-- Wrapping (release-profile) `u64` arithmetic. -/
def wrapU64 (x : Nat) : Nat := x % U64_MOD

/-- Rust's `Option::ok_or(e)?`. -/
def okOr {α ε : Type} (o : Option α) (e : ε) : Except ε α :=
  match o with
  | some a => .ok a
  | none => .error e

/-! ## Byte strings and digests -/

/-- A 32-byte digest (`[u8; 32]` / `BytesN<32>`), as a list of byte values. -/
abbrev Digest : Type := List Nat

/-- The all-zero 32-byte array, `[0u8; 32]`. -/
def zero32 : Digest := List.replicate 32 0

/-! ## Key-value storage

Both ink!'s `Mapping` and Soroban's persistent storage are key-value stores:
`insert`/`set` overwrites, lookup of a missing key is `None`.  We model them
as association lists where `insert` removes any previous binding of the key
and places the new one at the front. -/

/-- A key-value store (ink! `Mapping` / Soroban persistent storage keys). -/
structure SMap (α β : Type) where
  entries : List (α × β)
deriving DecidableEq

/-- The empty store (`Mapping::new()` / fresh storage). -/
def SMap.empty {α β : Type} : SMap α β := ⟨[]⟩

/-- Lookup (`Mapping::get` / `storage().get`). -/
def SMap.get? {α β : Type} [DecidableEq α] (m : SMap α β) (k : α) : Option β :=
  match m.entries.find? (fun p => decide (p.1 = k)) with
  | some p => some p.2
  | none => none

/-- Lookup with default (`.get(k).unwrap_or(d)`). -/
def SMap.getD {α β : Type} [DecidableEq α] (m : SMap α β) (k : α) (d : β) : β :=
  (m.get? k).getD d

/-- Key-presence test (`storage().has`). -/
def SMap.contains {α β : Type} [DecidableEq α] (m : SMap α β) (k : α) : Bool :=
  (m.get? k).isSome

/-- Insert/overwrite (`Mapping::insert` / `storage().set`). -/
def SMap.insert {α β : Type} [DecidableEq α] (m : SMap α β) (k : α) (v : β) :
    SMap α β :=
  ⟨(k, v) :: m.entries.filter (fun p => !(decide (p.1 = k)))⟩

/-- Sum of all stored values of a `Nat`-valued store (used to state the
conservation law over the balances map). -/
def SMap.sumVals {α : Type} (m : SMap α Nat) : Nat :=
  (m.entries.map (fun p => p.2)).sum

/-! ## Mint Ledger: `polkadot_bridge_complete.rs` -/

/-- Source `enum CommitmentStatus` (Polkadot side, lines 22-29). -/
inductive CommitmentStatus
  | Pending
  | Minted
  | Burned
deriving DecidableEq

/-- Source `struct BridgeCommitment` (Polkadot side, lines 11-20). -/
structure BridgeCommitment where
  commitment_hash : Digest
  source_chain : Nat
  amount : Nat
  timestamp : Nat
  status : CommitmentStatus
deriving DecidableEq

/-- Source `enum BridgeError` (lines 90-103). -/
inductive BridgeError
  | Unauthorized
  | ContractPaused
  | InvalidProof
  | NullifierUsed
  | CommitmentNotFound
  | CommitmentAlreadyProcessed
  | AmountTooLow
  | InsufficientBalance
  | ArithmeticOverflow
deriving DecidableEq

/-- Contract storage `struct PolkadotBridgeComplete` (lines 39-60). -/
structure PolkadotBridgeComplete where
  owner : Nat
  total_minted : Nat
  total_burned : Nat
  commitments : SMap Digest BridgeCommitment
  nullifiers : SMap Digest Bool
  balances : SMap Nat Nat
  min_mint_amount : Nat
  relayer_fee_bps : Nat
  paused : Bool
deriving DecidableEq

namespace PolkadotBridgeComplete

/-- Constructor `new` (lines 107-120); `caller` is `Self::env().caller()`. -/
def new (caller : Nat) (min_mint_amount : Nat) (relayer_fee_bps : Nat) :
    PolkadotBridgeComplete where
  owner := caller
  total_minted := 0
  total_burned := 0
  commitments := SMap.empty
  nullifiers := SMap.empty
  balances := SMap.empty
  min_mint_amount := min_mint_amount
  relayer_fee_bps := relayer_fee_bps
  paused := false

/-- Source `calculate_fee` (lines 292-295): `(amount * self.relayer_fee_bps as u128)
/ 10000` with an UNCHECKED `u128` multiply, which wraps modulo `2 ^ 128` in a
release build (and would panic in a debug build). -/
def calculate_fee (s : PolkadotBridgeComplete) (amount : Nat) : Nat :=
  (amount * s.relayer_fee_bps % U128_MOD) / 10000

/-- Source `verify_zk_proof` (Polkadot side, lines 252-282). -/
def verify_zk_proof (proof : List Nat)
    (commitment nullifier recipient_hash : Digest) : Bool :=
  if proof.length < 32 then
    false
  else if commitment = zero32 ∨ nullifier = zero32 ∨ recipient_hash = zero32 then
    false
  else
    true

/-- Body of `verify_and_mint` (lines 122-211): the sequential `&mut self`
semantics.  An error result carries the storage as mutated at the moment the
error return is taken (relevant only to the three `ArithmeticOverflow`
returns, which happen after the nullifier — and possibly the balance — has
been written).  `hashRecipient` stands for the Blake2x256 host hash used by
`hash_recipient` (lines 284-290), `now` for `env().block_timestamp()`. -/
def verify_and_mint_body (hashRecipient : Nat → Digest) (now : Nat)
    (s : PolkadotBridgeComplete) (proof : List Nat)
    (commitment_hash nullifier_hash : Digest)
    (recipient amount source_chain : Nat) :
    Except (BridgeError × PolkadotBridgeComplete) PolkadotBridgeComplete :=
  -- The sequential `&mut self` states after each write are spelled out as
  -- record updates of `s`; the fee, balance and total reads that the source
  -- performs after the nullifier write read fields the nullifier write does
  -- not touch, so they are written here directly over `s`.
  if s.paused then
    .error (.ContractPaused, s)
  else if amount < s.min_mint_amount then
    .error (.AmountTooLow, s)
  else if s.nullifiers.getD nullifier_hash false = true then
    .error (.NullifierUsed, s)
  else if verify_zk_proof proof commitment_hash nullifier_hash
      (hashRecipient recipient) = false then
    .error (.InvalidProof, s)
  else
    -- nullifier marked used; relayer fee; checked fee subtraction
    match checkedSub128 amount (s.calculate_fee amount) with
    | none => .error (.ArithmeticOverflow,
        { s with nullifiers := s.nullifiers.insert nullifier_hash true })
    | some mint_amount =>
      -- checked credit of the recipient balance
      match checkedAdd128 (s.balances.getD recipient 0) mint_amount with
      | none => .error (.ArithmeticOverflow,
          { s with nullifiers := s.nullifiers.insert nullifier_hash true })
      | some new_balance =>
        -- checked update of total_minted
        match checkedAdd128 s.total_minted mint_amount with
        | none => .error (.ArithmeticOverflow,
            { s with
              nullifiers := s.nullifiers.insert nullifier_hash true,
              balances := s.balances.insert recipient new_balance })
        | some tm =>
          -- store the commitment record
          .ok { s with
            nullifiers := s.nullifiers.insert nullifier_hash true,
            balances := s.balances.insert recipient new_balance,
            total_minted := tm,
            commitments := s.commitments.insert commitment_hash
              { commitment_hash := commitment_hash
                source_chain := source_chain
                amount := mint_amount
                timestamp := now
                status := .Minted } }

/-- Message `verify_and_mint` at the call boundary: ink! (>= 4) sets the
REVERT flag when a message returns `Err`, so the storage writes of a failed
call are discarded and only the error code is observable. -/
def verify_and_mint (hashRecipient : Nat → Digest) (now : Nat)
    (s : PolkadotBridgeComplete) (proof : List Nat)
    (commitment_hash nullifier_hash : Digest)
    (recipient amount source_chain : Nat) :
    Except BridgeError PolkadotBridgeComplete :=
  match verify_and_mint_body hashRecipient now s proof commitment_hash
      nullifier_hash recipient amount source_chain with
  | .ok s' => .ok s'
  | .error (e, _) => .error e

/-- Body of `burn_and_bridge` (lines 213-250); `caller` is `env().caller()`.
The `ArithmeticOverflow` return happens after the caller's balance has been
debited. -/
def burn_and_bridge_body (caller : Nat) (s : PolkadotBridgeComplete)
    (amount : Nat) (destination_commitment : Digest) :
    Except (BridgeError × PolkadotBridgeComplete) PolkadotBridgeComplete :=
  if s.paused then
    .error (.ContractPaused, s)
  else
    -- Check balance
    let current_balance := s.balances.getD caller 0
    if current_balance < amount then
      .error (.InsufficientBalance, s)
    else
      -- Burn tokens
      let new_balance := current_balance - amount
      let s1 := { s with balances := s.balances.insert caller new_balance }
      -- Update total burned
      match checkedAdd128 s1.total_burned amount with
      | none => .error (.ArithmeticOverflow, s1)
      | some tb => .ok { s1 with total_burned := tb }

/-- Message `burn_and_bridge` at the call boundary (errors revert).
`destination_commitment` only feeds the emitted event. -/
def burn_and_bridge (caller : Nat) (s : PolkadotBridgeComplete)
    (amount : Nat) (destination_commitment : Digest) :
    Except BridgeError PolkadotBridgeComplete :=
  match burn_and_bridge_body caller s amount destination_commitment with
  | .ok s' => .ok s'
  | .error (e, _) => .error e

/-- Body of `transfer` (lines 333-351).  Note that `to_balance` is read
BEFORE the caller is debited, and the credit insert happens after the debit
insert, so a self-transfer overwrites the debit with
`to_balance + amount = from_balance + amount`. -/
def transfer_body (caller : Nat) (s : PolkadotBridgeComplete)
    (to_acct amount : Nat) :
    Except (BridgeError × PolkadotBridgeComplete) PolkadotBridgeComplete :=
  let from_balance := s.balances.getD caller 0
  if from_balance < amount then
    .error (.InsufficientBalance, s)
  else
    let to_balance := s.balances.getD to_acct 0
    let s1 := { s with balances := s.balances.insert caller (from_balance - amount) }
    match checkedAdd128 to_balance amount with
    | none => .error (.ArithmeticOverflow, s1)
    | some credited => .ok { s1 with balances := s1.balances.insert to_acct credited }

/-- Message `transfer` at the call boundary (errors revert). -/
def transfer (caller : Nat) (s : PolkadotBridgeComplete) (to_acct amount : Nat) :
    Except BridgeError PolkadotBridgeComplete :=
  match transfer_body caller s to_acct amount with
  | .ok s' => .ok s'
  | .error (e, _) => .error e

/-- Source `balance_of` (lines 297-301). -/
def balance_of (s : PolkadotBridgeComplete) (account : Nat) : Nat :=
  s.balances.getD account 0

/-- Source `is_nullifier_used` (lines 303-307). -/
def is_nullifier_used (s : PolkadotBridgeComplete) (nullifier_hash : Digest) :
    Bool :=
  s.nullifiers.getD nullifier_hash false

/-- Source `get_commitment` (lines 309-313). -/
def get_commitment (s : PolkadotBridgeComplete) (commitment_hash : Digest) :
    Option BridgeCommitment :=
  s.commitments.get? commitment_hash

/-- Source `get_total_minted` (lines 315-319). -/
def get_total_minted (s : PolkadotBridgeComplete) : Nat := s.total_minted

/-- Source `get_total_burned` (lines 321-325). -/
def get_total_burned (s : PolkadotBridgeComplete) : Nat := s.total_burned

/-- Source `get_owner` (lines 327-331). -/
def get_owner (s : PolkadotBridgeComplete) : Nat := s.owner

/-- Source `update_config` (lines 353-373). -/
def update_config (caller : Nat) (s : PolkadotBridgeComplete)
    (min_mint_amount : Option Nat) (relayer_fee_bps : Option Nat) :
    Except BridgeError PolkadotBridgeComplete :=
  if caller ≠ s.owner then
    .error .Unauthorized
  else
    let s1 :=
      match min_mint_amount with
      | some min_amount => { s with min_mint_amount := min_amount }
      | none => s
    let s2 :=
      match relayer_fee_bps with
      | some fee => { s1 with relayer_fee_bps := fee }
      | none => s1
    .ok s2

/-- Source `set_paused` (lines 375-384). -/
def set_paused (caller : Nat) (s : PolkadotBridgeComplete) (paused : Bool) :
    Except BridgeError PolkadotBridgeComplete :=
  if caller ≠ s.owner then
    .error .Unauthorized
  else
    .ok { s with paused := paused }

/-- Source `transfer_ownership` (lines 386-395). -/
def transfer_ownership (caller : Nat) (s : PolkadotBridgeComplete)
    (new_owner : Nat) : Except BridgeError PolkadotBridgeComplete :=
  if caller ≠ s.owner then
    .error .Unauthorized
  else
    .ok { s with owner := new_owner }

/-- One transaction submitted to the Mint Ledger: a mutating entry point
together with its host environment (caller, block timestamp, host hash). -/
inductive Call
  | verifyAndMint (hashRecipient : Nat → Digest) (now : Nat)
      (proof : List Nat) (commitment_hash nullifier_hash : Digest)
      (recipient amount source_chain : Nat)
  | burnAndBridge (caller : Nat) (amount : Nat) (destination_commitment : Digest)
  | transferCall (caller to_acct amount : Nat)
  | updateConfig (caller : Nat) (min_mint_amount relayer_fee_bps : Option Nat)
  | setPaused (caller : Nat) (paused : Bool)
  | transferOwnership (caller new_owner : Nat)

/-- Execute one transaction (result or error). -/
def exec (c : Call) (s : PolkadotBridgeComplete) :
    Except BridgeError PolkadotBridgeComplete :=
  match c with
  | .verifyAndMint hashR now proof ch nh r amt sc =>
      verify_and_mint hashR now s proof ch nh r amt sc
  | .burnAndBridge caller amt dest => burn_and_bridge caller s amt dest
  | .transferCall caller to_acct amt => transfer caller s to_acct amt
  | .updateConfig caller minA fee => update_config caller s minA fee
  | .setPaused caller p => set_paused caller s p
  | .transferOwnership caller o => transfer_ownership caller s o

/-- Post-transaction state: on error the host reverts, so the pre-call state
persists. -/
def step (c : Call) (s : PolkadotBridgeComplete) : PolkadotBridgeComplete :=
  match exec c s with
  | .ok s' => s'
  | .error _ => s

/-- Reachability `Reach s s'`: `s'` results from `s` by some sequence of (possibly
failing) Mint Ledger transactions. -/
inductive Reach : PolkadotBridgeComplete → PolkadotBridgeComplete → Prop
  | refl (s : PolkadotBridgeComplete) : Reach s s
  | step {s s' : PolkadotBridgeComplete} (c : Call) :
      Reach s s' → Reach s (PolkadotBridgeComplete.step c s')

end PolkadotBridgeComplete

/-! ## Lock Ledger: `stellar_bridge_complete.rs`

Every failure in this contract is a Rust `panic!` (or an `expect` /
`unwrap`), which traps the Soroban host and rolls back the transaction,
including any token transfer already performed in it.  We model each panic
site as a structured error constructor named after its message; an `error`
result means the transaction aborted with no state change and no external
effect. -/

namespace Stellar

/-- Stellar-side `enum CommitmentStatus` (lines 21-28). -/
inductive CommitmentStatus
  | Locked
  | Claimed
  | Refunded
deriving DecidableEq

/-- Stellar-side `struct BridgeCommitment` (lines 9-19). -/
structure BridgeCommitment where
  commitment_hash : Digest
  sender : Nat
  amount : Int
  timestamp : Nat
  destination_chain : Nat
  status : CommitmentStatus
deriving DecidableEq

/-- The panic sites of the Stellar contract, one constructor per message:
`AlreadyInitialized` = "Contract already initialized" (line 66),
`Unauthorized` = a failed `require_auth` (lines 69, 93, 274, 361) or the
"Unauthorized" panic (line 359), `AmountBelowMinimum` = "Amount below
minimum" (line 103), `CommitmentExists` = "Commitment already exists"
(line 112), `NullifierUsed` = "Nullifier already used - double spend
attempt" (line 178), `CommitmentNotFound` = "Commitment not found"
(lines 186, 271, 330), `CommitmentAlreadyProcessed` = "Commitment already
processed" (lines 191, 286), `InvalidProof` = "Invalid ZK proof"
(line 203), `TimeoutNotReached` = "Timeout period not reached" (line 281),
`MissingConfig` = an `unwrap` of absent instance storage (lines 120, 293,
357). -/
inductive ContractError
  | AlreadyInitialized
  | Unauthorized
  | AmountBelowMinimum
  | CommitmentExists
  | NullifierUsed
  | CommitmentNotFound
  | CommitmentAlreadyProcessed
  | InvalidProof
  | TimeoutNotReached
  | MissingConfig
deriving DecidableEq

/-- An external `token::Client::transfer` call made by the contract
(line 122: sender → contract; lines 295-299: contract → sender). -/
structure TokenTransfer where
  token : Nat
  source : Nat
  dest : Nat
  amount : Int
deriving DecidableEq

end Stellar

/-- Stellar contract storage: the `DataKey` entries (lines 38-49).
Instance-storage singletons are `Option` fields (absent until
`initialize`), the keyed families `Commitment(·)` and `Nullifier(·)` are
stores. -/
structure StellarBridgeComplete where
  admin : Option Nat
  token_contract : Option Nat
  min_lock_amount : Option Int
  relayer_fee : Option Int
  total_locked : Option Int
  commitments : SMap Digest Stellar.BridgeCommitment
  nullifiers : SMap Digest Bool
deriving DecidableEq

namespace StellarBridgeComplete

/-- Completely empty storage of a freshly deployed instance. -/
def fresh : StellarBridgeComplete where
  admin := none
  token_contract := none
  min_lock_amount := none
  relayer_fee := none
  total_locked := none
  commitments := SMap.empty
  nullifiers := SMap.empty

/-- The result of a Stellar invocation: either the new storage plus the
external token transfers it performed, or the panic that aborted it (in
which case the host reverts everything). -/
abbrev SResult := Except Stellar.ContractError (StellarBridgeComplete × List Stellar.TokenTransfer)

/-- Source `initialize` (lines 56-83); renamed because `initialize` is reserved in
Lean.  `auth` tells which addresses have authorized this invocation
(`require_auth`). -/
def init_bridge (auth : Nat → Bool) (s : StellarBridgeComplete)
    (admin token_contract : Nat) (min_lock_amount relayer_fee : Int) :
    SResult :=
  if s.admin.isSome then
    .error .AlreadyInitialized
  else if auth admin = false then
    .error .Unauthorized
  else
    .ok ({ s with
      admin := some admin
      token_contract := some token_contract
      min_lock_amount := some min_lock_amount
      relayer_fee := some relayer_fee
      total_locked := some 0 }, [])

/-- Source `lock_funds` (lines 85-161).  `contractAddr` is
`env.current_contract_address()`, `now` is `env.ledger().timestamp()`.
The `total_locked + amount` update (line 147) is an UNCHECKED `i128`
addition, modelled with `wrapI128`. -/
def lock_funds (auth : Nat → Bool) (contractAddr now : Nat)
    (s : StellarBridgeComplete) (sender : Nat) (amount : Int)
    (commitment_hash : Digest) (destination_chain : Nat) : SResult :=
  if auth sender = false then
    .error .Unauthorized
  else
    -- Validate amount
    let min_amount := s.min_lock_amount.getD 1000000
    if amount < min_amount then
      .error .AmountBelowMinimum
    -- Check if commitment already exists
    else if s.commitments.contains commitment_hash = true then
      .error .CommitmentExists
    else
      match s.token_contract with
      | none => .error .MissingConfig
      | some token =>
        -- Transfer tokens to contract
        let transfers : List Stellar.TokenTransfer :=
          [{ token := token, source := sender, dest := contractAddr, amount := amount }]
        -- Create and store the commitment record
        let commitment : Stellar.BridgeCommitment :=
          { commitment_hash := commitment_hash
            sender := sender
            amount := amount
            timestamp := now
            destination_chain := destination_chain
            status := .Locked }
        let s1 := { s with commitments := s.commitments.insert commitment_hash commitment }
        -- Update total locked
        let total_locked := s1.total_locked.getD 0
        let s2 := { s1 with total_locked := some (wrapI128 (total_locked + amount)) }
        .ok (s2, transfers)

/-- Stellar-side `verify_zk_proof` (lines 233-263). -/
def verify_zk_proof (proof : List Nat)
    (commitment nullifier recipient : Digest) : Bool :=
  if proof.length < 32 then
    false
  else if commitment = zero32 ∨ nullifier = zero32 ∨ recipient = zero32 then
    false
  else
    true

/-- Source `verify_and_unlock` (lines 163-231). -/
def verify_and_unlock (s : StellarBridgeComplete) (proof : List Nat)
    (commitment_hash nullifier_hash recipient_hash : Digest) : SResult :=
  -- Check if nullifier already used (prevent double-spend)
  if s.nullifiers.contains nullifier_hash = true then
    .error .NullifierUsed
  else
    match s.commitments.get? commitment_hash with
    | none => .error .CommitmentNotFound
    | some commitment =>
      -- Check commitment status
      if commitment.status ≠ .Locked then
        .error .CommitmentAlreadyProcessed
      else if verify_zk_proof proof commitment_hash nullifier_hash
          recipient_hash = false then
        .error .InvalidProof
      else
        -- Mark nullifier as used
        let s1 := { s with nullifiers := s.nullifiers.insert nullifier_hash true }
        -- Update commitment status
        let updated := { commitment with status := Stellar.CommitmentStatus.Claimed }
        let s2 := { s1 with commitments := s1.commitments.insert commitment_hash updated }
        .ok (s2, [])

/-- Source `refund` (lines 265-323).  The deadline `commitment.timestamp + 604800`
(line 280) is an UNCHECKED `u64` addition, modelled with `% 2 ^ 64`; the
`total_locked - commitment.amount` update (line 316) is an UNCHECKED `i128`
subtraction, modelled with `wrapI128`. -/
def refund (auth : Nat → Bool) (contractAddr now : Nat)
    (s : StellarBridgeComplete) (commitment_hash : Digest) : SResult :=
  match s.commitments.get? commitment_hash with
  | none => .error .CommitmentNotFound
  | some commitment =>
    -- Only sender can refund
    if auth commitment.sender = false then
      .error .Unauthorized
    -- Check if enough time has passed (7 days = 604800 seconds)
    else if now < wrapU64 (commitment.timestamp + 604800) then
      .error .TimeoutNotReached
    else if commitment.status ≠ .Locked then
      .error .CommitmentAlreadyProcessed
    else
      match s.token_contract with
      | none => .error .MissingConfig
      | some token =>
        -- Transfer tokens back to sender
        let transfers : List Stellar.TokenTransfer :=
          [{ token := token, source := contractAddr, dest := commitment.sender,
             amount := commitment.amount }]
        -- Update commitment status
        let updated := { commitment with status := Stellar.CommitmentStatus.Refunded }
        let s1 := { s with commitments := s.commitments.insert commitment_hash updated }
        -- Update total locked
        let total_locked := s1.total_locked.getD 0
        let s2 := { s1 with
          total_locked := some (wrapI128 (total_locked - commitment.amount)) }
        .ok (s2, transfers)

/-- Source `get_commitment` (lines 325-331). -/
def get_commitment (s : StellarBridgeComplete) (commitment_hash : Digest) :
    Option Stellar.BridgeCommitment :=
  s.commitments.get? commitment_hash

/-- Source `is_nullifier_used` (lines 333-339). -/
def is_nullifier_used (s : StellarBridgeComplete) (nullifier_hash : Digest) :
    Bool :=
  s.nullifiers.getD nullifier_hash false

/-- Source `get_total_locked` (lines 341-347). -/
def get_total_locked (s : StellarBridgeComplete) : Int :=
  s.total_locked.getD 0

/-- Source `update_config` (lines 349-375). -/
def update_config (auth : Nat → Bool) (s : StellarBridgeComplete)
    (admin : Nat) (min_lock_amount relayer_fee : Option Int) : SResult :=
  match s.admin with
  | none => .error .MissingConfig
  | some current_admin =>
    if admin ≠ current_admin then
      .error .Unauthorized
    else if auth admin = false then
      .error .Unauthorized
    else
      let s1 :=
        match min_lock_amount with
        | some min_amount => { s with min_lock_amount := some min_amount }
        | none => s
      let s2 :=
        match relayer_fee with
        | some fee => { s1 with relayer_fee := some fee }
        | none => s1
      .ok (s2, [])

/-- One transaction submitted to the Lock Ledger, with its host
environment. -/
inductive Call
  | initCall (auth : Nat → Bool) (admin token_contract : Nat)
      (min_lock_amount relayer_fee : Int)
  | lockFunds (auth : Nat → Bool) (contractAddr now : Nat) (sender : Nat)
      (amount : Int) (commitment_hash : Digest) (destination_chain : Nat)
  | verifyAndUnlock (proof : List Nat)
      (commitment_hash nullifier_hash recipient_hash : Digest)
  | refundCall (auth : Nat → Bool) (contractAddr now : Nat)
      (commitment_hash : Digest)
  | updateConfig (auth : Nat → Bool) (admin : Nat)
      (min_lock_amount relayer_fee : Option Int)

/-- Execute one Lock Ledger transaction. -/
def exec (c : Call) (s : StellarBridgeComplete) : SResult :=
  match c with
  | .initCall auth a t minA fee => init_bridge auth s a t minA fee
  | .lockFunds auth ca now sender amt ch dest =>
      lock_funds auth ca now s sender amt ch dest
  | .verifyAndUnlock proof ch nh rh => verify_and_unlock s proof ch nh rh
  | .refundCall auth ca now ch => refund auth ca now s ch
  | .updateConfig auth a minA fee => update_config auth s a minA fee

/-- Post-transaction storage: a panic reverts to the pre-call storage. -/
def step (c : Call) (s : StellarBridgeComplete) : StellarBridgeComplete :=
  match exec c s with
  | .ok (s', _) => s'
  | .error _ => s

/-- Reachability `Reach s s'`: `s'` results from `s` by some sequence of (possibly
panicking) Lock Ledger transactions. -/
inductive Reach : StellarBridgeComplete → StellarBridgeComplete → Prop
  | refl (s : StellarBridgeComplete) : Reach s s
  | step {s s' : StellarBridgeComplete} (c : Call) :
      Reach s s' → Reach s (StellarBridgeComplete.step c s')

end StellarBridgeComplete

/-! ## Concrete data used by counterexamples and witnesses -/

/-- A non-zero digest: 32 bytes of value 1. -/
def d1 : Digest := List.replicate 32 1

/-- A non-zero digest: 32 bytes of value 2 (used as a commitment hash). -/
def d2 : Digest := List.replicate 32 2

/-- A non-zero digest: 32 bytes of value 3 (used as a nullifier hash). -/
def d3 : Digest := List.replicate 32 3

/-- A non-zero digest: 32 bytes of value 4 (a second nullifier hash). -/
def d4 : Digest := List.replicate 32 4

/-- A stand-in for the Blake2x256 host hash: every account hashes to the
non-zero digest `d1` (concrete Blake2 outputs are never all-zero). -/
def hashConst : Nat → Digest := fun _ => d1

/-- A structurally valid 32-byte proof blob. -/
def proof32 : List Nat := List.replicate 32 1

/-- An authorization environment in which every address has signed. -/
def authAll : Nat → Bool := fun _ => true

/-- A freshly constructed Mint Ledger (`new(1000, 30)` by account 0) that the
owner has paused. -/
def pausedDemo : PolkadotBridgeComplete :=
  { PolkadotBridgeComplete.new 0 1000 30 with paused := true }

/-- A Mint Ledger whose single holder (account 1) owns `2 ^ 127` wrapped
tokens (such balances are reachable, e.g. by minting with `relayer_fee_bps
= 0` or by repeated self-transfer doubling). -/
def bigBalDemo : PolkadotBridgeComplete :=
  { PolkadotBridgeComplete.new 0 1000 30 with
    balances := SMap.empty.insert 1 (2 ^ 127) }

/-- A Mint Ledger whose single holder (account 1) owns 5 wrapped tokens. -/
def smallBalDemo : PolkadotBridgeComplete :=
  { PolkadotBridgeComplete.new 0 1000 30 with
    balances := SMap.empty.insert 1 5,
    total_minted := 5 }

/-- The Mint Ledger state after one successful mint: `new(1000, 30)` by
account 0, then `verify_and_mint(proof32, d2, d3, recipient 1, amount
10000, source chain 0)` at time 0. -/
def mintedDemo : PolkadotBridgeComplete :=
  PolkadotBridgeComplete.step
    (.verifyAndMint hashConst 0 proof32 d2 d3 1 10000 0)
    (PolkadotBridgeComplete.new 0 1000 30)

/-- An initialized Lock Ledger: admin 0, token contract 9, minimum lock
amount 1000, relayer fee 0, nothing locked yet. -/
def stInit : StellarBridgeComplete :=
  { StellarBridgeComplete.fresh with
    admin := some 0
    token_contract := some 9
    min_lock_amount := some 1000
    relayer_fee := some 0
    total_locked := some 0 }

/-- A `Locked` commitment of 5000 units by sender 1 at ledger time 0. -/
def lockRec : Stellar.BridgeCommitment :=
  { commitment_hash := d2
    sender := 1
    amount := 5000
    timestamp := 0
    destination_chain := 1
    status := .Locked }

/-- The Lock Ledger after `lockRec` has been recorded. -/
def stLocked : StellarBridgeComplete :=
  { stInit with
    commitments := SMap.empty.insert d2 lockRec
    total_locked := some 5000 }

/-- A `Locked` commitment whose `u64` timestamp sits at the top of the
`u64` range, so `timestamp + 604800` wraps. -/
def lockRecWrap : Stellar.BridgeCommitment :=
  { lockRec with timestamp := U64_MOD - 1 }

/-- The Lock Ledger holding the wrap-around commitment. -/
def stLockedWrap : StellarBridgeComplete :=
  { stInit with
    commitments := SMap.empty.insert d2 lockRecWrap
    total_locked := some 5000 }

/-! ## Store lemmas -/

theorem List.find?_filter_ne {α β : Type} [DecidableEq α] (l : List (α × β))
    {k k' : α} (h : k' ≠ k) :
    (l.filter (fun p => !(decide (p.1 = k)))).find? (fun p => decide (p.1 = k')) =
      l.find? (fun p => decide (p.1 = k')) := by
  induction l with
  | nil => rfl
  | cons a l ih =>
    have hkk : ¬ k = k' := fun e => h e.symm
    by_cases hk : a.1 = k
    · have hk' : ¬ a.1 = k' := by
        rw [hk]; exact hkk
      simp [List.filter_cons, List.find?_cons, hk, hk', hkk, h, ih]
    · by_cases hk'' : a.1 = k'
      · simp [List.filter_cons, List.find?_cons, hk, hk'', hkk, h]
      · simp [List.filter_cons, List.find?_cons, hk, hk'', hkk, h, ih]

theorem SMap.get?_insert_self {α β : Type} [DecidableEq α] (m : SMap α β)
    (k : α) (v : β) : (m.insert k v).get? k = some v := by
  simp [SMap.insert, SMap.get?, List.find?_cons]

theorem SMap.get?_insert_ne {α β : Type} [DecidableEq α] (m : SMap α β)
    {k k' : α} (v : β) (h : k' ≠ k) :
    (m.insert k v).get? k' = m.get? k' := by
  have hk : ¬ k = k' := fun e => h e.symm
  simp [SMap.insert, SMap.get?, List.find?_cons, hk,
    List.find?_filter_ne m.entries h]

theorem SMap.getD_insert_self {α β : Type} [DecidableEq α] (m : SMap α β)
    (k : α) (v d : β) : (m.insert k v).getD k d = v := by
  simp [SMap.getD, SMap.get?_insert_self]

theorem SMap.getD_insert_ne {α β : Type} [DecidableEq α] (m : SMap α β)
    {k k' : α} (v d : β) (h : k' ≠ k) :
    (m.insert k v).getD k' d = m.getD k' d := by
  simp [SMap.getD, SMap.get?_insert_ne m v h]

/-- Inserting `true` under any key preserves every key already mapped to
`true` (nullifiers are only ever inserted with value `true`). -/
theorem SMap.getD_true_insert_true {α : Type} [DecidableEq α]
    (m : SMap α Bool) (k n : α) (h : m.getD n false = true) :
    (m.insert k true).getD n false = true := by
  by_cases e : n = k
  · subst e; simp [SMap.getD_insert_self]
  · rwa [SMap.getD_insert_ne m true false e]

/-- Inserting anything preserves key presence. -/
theorem SMap.contains_insert_of_contains {α β : Type} [DecidableEq α]
    (m : SMap α β) (k n : α) (v : β) (h : m.contains n = true) :
    (m.insert k v).contains n = true := by
  by_cases e : n = k
  · subst e; simp [SMap.contains, SMap.get?_insert_self]
  · simpa [SMap.contains, SMap.get?_insert_ne m v e] using h

/-! ## Mint Ledger shape lemmas -/

namespace PolkadotBridgeComplete

/-- The message succeeds exactly when its body does, with the same state. -/
theorem verify_and_mint_ok_iff {hashR : Nat → Digest} {now : Nat}
    {s s' : PolkadotBridgeComplete} {proof : List Nat} {ch nh : Digest}
    {r amt sc : Nat} :
    verify_and_mint hashR now s proof ch nh r amt sc = .ok s' ↔
      verify_and_mint_body hashR now s proof ch nh r amt sc = .ok s' := by
  unfold verify_and_mint
  constructor
  · intro h
    split at h <;> simp_all
  · intro h
    rw [h]

/-- A failed message reports the body's error (the partially mutated body
state is discarded by the revert). -/
theorem verify_and_mint_error_iff {hashR : Nat → Digest} {now : Nat}
    {s : PolkadotBridgeComplete} {proof : List Nat} {ch nh : Digest}
    {r amt sc : Nat} {e : BridgeError} :
    verify_and_mint hashR now s proof ch nh r amt sc = .error e ↔
      ∃ sp, verify_and_mint_body hashR now s proof ch nh r amt sc = .error (e, sp) := by
  unfold verify_and_mint
  constructor
  · intro h
    split at h <;> simp_all
  · intro ⟨sp, h⟩
    rw [h]

/-- Forward success rule for `verify_and_mint`: when every guard passes and
every checked operation succeeds, the message returns the exact final
storage. -/
theorem verify_and_mint_success {hashR : Nat → Digest} {now : Nat}
    {s : PolkadotBridgeComplete} {proof : List Nat} {ch nh : Digest}
    {r amount sc m nb tm : Nat}
    (hp : s.paused = false)
    (ha : ¬ amount < s.min_mint_amount)
    (hn : s.nullifiers.getD nh false = false)
    (hv : verify_zk_proof proof ch nh (hashR r) = true)
    (hsub : checkedSub128 amount (s.calculate_fee amount) = some m)
    (hbal : checkedAdd128 (s.balances.getD r 0) m = some nb)
    (htm : checkedAdd128 s.total_minted m = some tm) :
    verify_and_mint hashR now s proof ch nh r amount sc = .ok
      { s with
        nullifiers := s.nullifiers.insert nh true,
        balances := s.balances.insert r nb,
        total_minted := tm,
        commitments := s.commitments.insert ch
          { commitment_hash := ch, source_chain := sc, amount := m,
            timestamp := now, status := .Minted } } := by
  have hbody : verify_and_mint_body hashR now s proof ch nh r amount sc = .ok
      { s with
        nullifiers := s.nullifiers.insert nh true,
        balances := s.balances.insert r nb,
        total_minted := tm,
        commitments := s.commitments.insert ch
          { commitment_hash := ch, source_chain := sc, amount := m,
            timestamp := now, status := .Minted } } := by
    unfold verify_and_mint_body
    rw [if_neg (by simp [hp]), if_neg ha, if_neg (by simp [hn]),
      if_neg (by simp [hv])]
    simp only [hsub, hbal, htm]
  exact verify_and_mint_ok_iff.mpr hbody

/-- On success the body wrote exactly one nullifier entry: the presented
nullifier hash, set to `true`. -/
theorem verify_and_mint_body_ok_nullifiers {hashR : Nat → Digest} {now : Nat}
    {s s' : PolkadotBridgeComplete} {proof : List Nat} {ch nh : Digest}
    {r amt sc : Nat}
    (h : verify_and_mint_body hashR now s proof ch nh r amt sc = .ok s') :
    s'.nullifiers = s.nullifiers.insert nh true := by
  unfold verify_and_mint_body at h
  split_ifs at h <;> try simp_all
  split at h <;> try simp_all
  split at h <;> try simp_all
  split at h <;> simp_all
  subst h
  rfl

/-- On success the commitment record written is keyed by the presented
commitment hash, carries status `Minted`, and overwrites whatever was there;
no other commitment entry changes. -/
theorem verify_and_mint_body_ok_commitments {hashR : Nat → Digest} {now : Nat}
    {s s' : PolkadotBridgeComplete} {proof : List Nat} {ch nh : Digest}
    {r amt sc : Nat}
    (h : verify_and_mint_body hashR now s proof ch nh r amt sc = .ok s') :
    ∃ rec : BridgeCommitment, rec.commitment_hash = ch ∧ rec.status = .Minted ∧
      s'.commitments = s.commitments.insert ch rec := by
  unfold verify_and_mint_body at h
  split_ifs at h <;> try simp_all
  split at h <;> try simp_all
  split at h <;> try simp_all
  split at h <;> simp_all
  subst h
  exact ⟨_, rfl, rfl, rfl⟩

/-- The `burn_and_bridge` message succeeds exactly when its body does. -/
theorem burn_and_bridge_ok_iff {caller : Nat}
    {s s' : PolkadotBridgeComplete} {amt : Nat} {dest : Digest} :
    burn_and_bridge caller s amt dest = .ok s' ↔
      burn_and_bridge_body caller s amt dest = .ok s' := by
  unfold burn_and_bridge
  constructor
  · intro h
    split at h <;> simp_all
  · intro h
    rw [h]

/-- Message `burn_and_bridge` leaves the nullifier set untouched. -/
theorem burn_and_bridge_ok_nullifiers {caller : Nat}
    {s s' : PolkadotBridgeComplete} {amt : Nat} {dest : Digest}
    (h : burn_and_bridge caller s amt dest = .ok s') :
    s'.nullifiers = s.nullifiers := by
  have hb := burn_and_bridge_ok_iff.mp h
  simp only [burn_and_bridge_body] at hb
  split_ifs at hb <;> try exact Except.noConfusion hb
  split at hb <;> try exact Except.noConfusion hb
  injection hb with hb2
  subst hb2
  rfl

/-- The `transfer` message succeeds exactly when its body does. -/
theorem transfer_ok_iff {caller : Nat}
    {s s' : PolkadotBridgeComplete} {to_acct amt : Nat} :
    transfer caller s to_acct amt = .ok s' ↔
      transfer_body caller s to_acct amt = .ok s' := by
  unfold transfer
  constructor
  · intro h
    split at h <;> simp_all
  · intro h
    rw [h]

/-- Message `transfer` leaves the nullifier set untouched. -/
theorem transfer_ok_nullifiers {caller : Nat}
    {s s' : PolkadotBridgeComplete} {to_acct amt : Nat}
    (h : transfer caller s to_acct amt = .ok s') :
    s'.nullifiers = s.nullifiers := by
  have hb := transfer_ok_iff.mp h
  simp only [transfer_body] at hb
  split_ifs at hb <;> try exact Except.noConfusion hb
  split at hb <;> try exact Except.noConfusion hb
  injection hb with hb2
  subst hb2
  rfl

/-- Message `update_config` leaves the nullifier set untouched. -/
theorem update_config_ok_nullifiers {caller : Nat}
    {s s' : PolkadotBridgeComplete} {minA fee : Option Nat}
    (h : update_config caller s minA fee = .ok s') :
    s'.nullifiers = s.nullifiers := by
  unfold update_config at h
  split_ifs at h <;> try simp_all
  subst h
  cases minA <;> cases fee <;> rfl

/-- Message `set_paused` leaves the nullifier set untouched. -/
theorem set_paused_ok_nullifiers {caller : Nat}
    {s s' : PolkadotBridgeComplete} {p : Bool}
    (h : set_paused caller s p = .ok s') :
    s'.nullifiers = s.nullifiers := by
  unfold set_paused at h
  split_ifs at h <;> simp_all
  subst h
  rfl

/-- Message `transfer_ownership` leaves the nullifier set untouched. -/
theorem transfer_ownership_ok_nullifiers {caller : Nat}
    {s s' : PolkadotBridgeComplete} {o : Nat}
    (h : transfer_ownership caller s o = .ok s') :
    s'.nullifiers = s.nullifiers := by
  unfold transfer_ownership at h
  split_ifs at h <;> simp_all
  subst h
  rfl

/-- A consumed nullifier stays consumed across any single transaction. -/
theorem step_nullifier_mono (c : Call) (s : PolkadotBridgeComplete)
    (n : Digest) (h : s.nullifiers.getD n false = true) :
    (step c s).nullifiers.getD n false = true := by
  unfold step
  cases hx : exec c s with
  | error e => exact h
  | ok s' =>
    cases c with
    | verifyAndMint hashR now proof ch nh r amt sc =>
      have hb := verify_and_mint_ok_iff.mp (by simpa [exec] using hx)
      rw [verify_and_mint_body_ok_nullifiers hb]
      exact SMap.getD_true_insert_true _ _ _ h
    | burnAndBridge caller amt dest =>
      rw [burn_and_bridge_ok_nullifiers (by simpa [exec] using hx)]
      exact h
    | transferCall caller to_acct amt =>
      rw [transfer_ok_nullifiers (by simpa [exec] using hx)]
      exact h
    | updateConfig caller minA fee =>
      rw [update_config_ok_nullifiers (by simpa [exec] using hx)]
      exact h
    | setPaused caller p =>
      rw [set_paused_ok_nullifiers (by simpa [exec] using hx)]
      exact h
    | transferOwnership caller o =>
      rw [transfer_ownership_ok_nullifiers (by simpa [exec] using hx)]
      exact h

/-- A consumed nullifier stays consumed across any transaction sequence. -/
theorem reach_nullifier_mono {s s' : PolkadotBridgeComplete} (n : Digest)
    (hr : Reach s s') (h : s.nullifiers.getD n false = true) :
    s'.nullifiers.getD n false = true := by
  induction hr with
  | refl => exact h
  | step c _ ih => exact step_nullifier_mono c _ n ih

/-- With a consumed nullifier, `verify_and_mint` never succeeds. -/
theorem verify_and_mint_used_not_ok {hashR : Nat → Digest} {now : Nat}
    {s : PolkadotBridgeComplete} {proof : List Nat} {ch nh : Digest}
    {r amt sc : Nat} (h : s.nullifiers.getD nh false = true)
    (s3 : PolkadotBridgeComplete) :
    verify_and_mint hashR now s proof ch nh r amt sc ≠ .ok s3 := by
  intro hok
  have hb := verify_and_mint_ok_iff.mp hok
  unfold verify_and_mint_body at hb
  split_ifs at hb <;> simp_all

/-- With a consumed nullifier, `verify_and_mint` fails with `NullifierUsed`
as soon as the pause and minimum-amount guards let it through. -/
theorem verify_and_mint_used_err {hashR : Nat → Digest} {now : Nat}
    {s : PolkadotBridgeComplete} {proof : List Nat} {ch nh : Digest}
    {r amt sc : Nat} (hp : s.paused = false)
    (ha : ¬ amt < s.min_mint_amount)
    (h : s.nullifiers.getD nh false = true) :
    verify_and_mint hashR now s proof ch nh r amt sc = .error .NullifierUsed := by
  unfold verify_and_mint verify_and_mint_body
  simp [hp, ha, h]

end PolkadotBridgeComplete

/-! ## Lock Ledger shape lemmas -/

namespace StellarBridgeComplete

/-- On success, `verify_and_unlock` wrote exactly one nullifier entry: the
presented nullifier hash, set to `true`. -/
theorem verify_and_unlock_ok_nullifiers {s : StellarBridgeComplete}
    {proof : List Nat} {ch nh rh : Digest}
    {out : StellarBridgeComplete × List Stellar.TokenTransfer}
    (h : verify_and_unlock s proof ch nh rh = .ok out) :
    out.1.nullifiers = s.nullifiers.insert nh true := by
  simp only [verify_and_unlock] at h
  split at h <;> try exact Except.noConfusion h
  split at h <;> try exact Except.noConfusion h
  split_ifs at h <;> try exact Except.noConfusion h
  injection h with h2
  subst h2
  rfl

/-- Invocation `initialize` leaves the nullifier set untouched. -/
theorem init_bridge_ok_nullifiers {auth : Nat → Bool}
    {s : StellarBridgeComplete} {a t : Nat} {minA fee : Int}
    {out : StellarBridgeComplete × List Stellar.TokenTransfer}
    (h : init_bridge auth s a t minA fee = .ok out) :
    out.1.nullifiers = s.nullifiers := by
  simp only [init_bridge] at h
  split_ifs at h <;> try exact Except.noConfusion h
  injection h with h2
  subst h2
  rfl

/-- Invocation `lock_funds` leaves the nullifier set untouched. -/
theorem lock_funds_ok_nullifiers {auth : Nat → Bool} {ca now : Nat}
    {s : StellarBridgeComplete} {sender : Nat} {amt : Int} {ch : Digest}
    {dest : Nat} {out : StellarBridgeComplete × List Stellar.TokenTransfer}
    (h : lock_funds auth ca now s sender amt ch dest = .ok out) :
    out.1.nullifiers = s.nullifiers := by
  simp only [lock_funds] at h
  split_ifs at h <;> try exact Except.noConfusion h
  split at h <;> try exact Except.noConfusion h
  injection h with h2
  subst h2
  rfl

/-- Invocation `refund` leaves the nullifier set untouched. -/
theorem refund_ok_nullifiers {auth : Nat → Bool} {ca now : Nat}
    {s : StellarBridgeComplete} {ch : Digest}
    {out : StellarBridgeComplete × List Stellar.TokenTransfer}
    (h : refund auth ca now s ch = .ok out) :
    out.1.nullifiers = s.nullifiers := by
  simp only [refund] at h
  split at h <;> try exact Except.noConfusion h
  split_ifs at h <;> try exact Except.noConfusion h
  split at h <;> try exact Except.noConfusion h
  injection h with h2
  subst h2
  rfl

/-- Message `update_config` leaves the nullifier set untouched. -/
theorem update_config_keeps_nullifiers {auth : Nat → Bool}
    {s : StellarBridgeComplete} {a : Nat} {minA fee : Option Int}
    {out : StellarBridgeComplete × List Stellar.TokenTransfer}
    (h : update_config auth s a minA fee = .ok out) :
    out.1.nullifiers = s.nullifiers := by
  simp only [update_config] at h
  split at h <;> try exact Except.noConfusion h
  split_ifs at h <;> try exact Except.noConfusion h
  injection h with h2
  subst h2
  cases minA <;> cases fee <;> rfl

/-- A consumed nullifier stays present across any single transaction. -/
theorem step_keeps_nullifier (c : Call) (s : StellarBridgeComplete)
    (n : Digest) (h : s.nullifiers.contains n = true) :
    (step c s).nullifiers.contains n = true := by
  unfold step
  cases hx : exec c s with
  | error e => exact h
  | ok out =>
    cases c with
    | initCall auth a t minA fee =>
      rw [init_bridge_ok_nullifiers (by simpa [exec] using hx)]
      exact h
    | lockFunds auth ca now sender amt ch dest =>
      rw [lock_funds_ok_nullifiers (by simpa [exec] using hx)]
      exact h
    | verifyAndUnlock proof ch nh rh =>
      rw [verify_and_unlock_ok_nullifiers (by simpa [exec] using hx)]
      exact SMap.contains_insert_of_contains _ _ _ _ h
    | refundCall auth ca now ch =>
      rw [refund_ok_nullifiers (by simpa [exec] using hx)]
      exact h
    | updateConfig auth a minA fee =>
      rw [update_config_keeps_nullifiers (by simpa [exec] using hx)]
      exact h

/-- A consumed nullifier stays present across any transaction sequence. -/
theorem reach_keeps_nullifier {s s' : StellarBridgeComplete} (n : Digest)
    (hr : Reach s s') (h : s.nullifiers.contains n = true) :
    s'.nullifiers.contains n = true := by
  induction hr with
  | refl => exact h
  | step c _ ih => exact step_keeps_nullifier c _ n ih

/-- With a consumed nullifier, `verify_and_unlock` panics immediately with
the double-spend message (its nullifier check is the first statement). -/
theorem verify_and_unlock_used_err {s : StellarBridgeComplete}
    {proof : List Nat} {ch nh rh : Digest}
    (h : s.nullifiers.contains nh = true) :
    verify_and_unlock s proof ch nh rh = .error .NullifierUsed := by
  simp [verify_and_unlock, h]

end StellarBridgeComplete

/-! ## Arithmetic helper lemmas -/

theorem checkedAdd128_eq_some {a b c : Nat} (h : checkedAdd128 a b = some c) :
    c = a + b ∧ a + b < U128_MOD := by
  unfold checkedAdd128 at h
  split_ifs at h with hlt
  exact ⟨(Option.some.inj h).symm, hlt⟩

theorem checkedSub128_eq_some {a b c : Nat} (h : checkedSub128 a b = some c) :
    c = a - b ∧ b ≤ a := by
  unfold checkedSub128 at h
  split_ifs at h with hle
  exact ⟨(Option.some.inj h).symm, hle⟩

/-- Values already inside the `i128` range are fixed by the wrap. -/
theorem wrapI128_eq_self {x : Int} (h1 : -(2 ^ 127) ≤ x) (h2 : x < 2 ^ 127) :
    wrapI128 x = x := by
  unfold wrapI128
  have he : (2 : Int) ^ 128 = 2 ^ 127 * 2 := by norm_num
  rw [Int.emod_eq_of_lt (by linarith) (by linarith)]
  ring

/-- Values already inside the `u64` range are fixed by the wrap. -/
theorem wrapU64_eq_self {x : Nat} (h : x < U64_MOD) : wrapU64 x = x :=
  Nat.mod_eq_of_lt h

/-- Full inversion of a successful `verify_and_mint` body: the checked
operations that must have succeeded and the exact final storage. -/
theorem PolkadotBridgeComplete.verify_and_mint_body_ok_spec
    {hashR : Nat → Digest} {now : Nat} {s s' : PolkadotBridgeComplete}
    {proof : List Nat} {ch nh : Digest} {r amount sc : Nat}
    (h : PolkadotBridgeComplete.verify_and_mint_body hashR now s proof ch nh
        r amount sc = .ok s') :
    ∃ m nb tm,
      checkedSub128 amount (s.calculate_fee amount) = some m ∧
      checkedAdd128 (s.balances.getD r 0) m = some nb ∧
      checkedAdd128 s.total_minted m = some tm ∧
      s' = { s with
        nullifiers := s.nullifiers.insert nh true,
        balances := s.balances.insert r nb,
        total_minted := tm,
        commitments := s.commitments.insert ch
          { commitment_hash := ch, source_chain := sc, amount := m,
            timestamp := now, status := .Minted } } := by
  simp only [PolkadotBridgeComplete.verify_and_mint_body] at h
  split_ifs at h <;> try exact Except.noConfusion h
  split at h
  · exact Except.noConfusion h
  · rename_i m hsub
    split at h
    · exact Except.noConfusion h
    · rename_i nb hbal
      split at h
      · exact Except.noConfusion h
      · rename_i tm htm
        injection h with h2
        exact ⟨m, nb, tm, hsub, hbal, htm, h2.symm⟩

/-! ## Claim C1 -/

/-- C1: REFUTED BY THE CODE (code bug).  The conservation law
`sum(balances) = total_minted - total_burned` is claimed to hold after every
successful `verify_and_mint` / `burn_and_bridge` / `transfer` call from a
fresh contract, including self-transfers.  The concrete successful trace
`new(1000, 30)`, then `verify_and_mint(amount = 10000, recipient = 1)`
(credits 9970), then account 1 calling `transfer(to = 1, amount = 9970)`
ends with `sum(balances) = 19940` while `total_minted - total_burned =
9970`: the self-transfer's credit, computed from the pre-debit balance,
overwrites the debit and inflates the supply. -/
theorem c1_conservation_violated_by_self_transfer :
    ((PolkadotBridgeComplete.verify_and_mint hashConst 0
        (PolkadotBridgeComplete.new 0 1000 30) proof32 d2 d3 1 10000 0).bind
      (fun s1 => PolkadotBridgeComplete.transfer 1 s1 1 9970)).map
      (fun s2 => (s2.balances.sumVals, s2.get_total_minted, s2.get_total_burned))
      = .ok (19940, 9970, 0) ∧ (19940 : Nat) ≠ 9970 - 0 :=
  ⟨rfl, by decide⟩

/-! ## Claim C5 -/

/-- C5: REFUTED BY THE CODE (code bug).  The fee computation
`amount * relayer_fee_bps / 10000` (`calculate_fee`, lines 293-295) is an
UNCHECKED `u128` multiply: for `amount = 2 ^ 127` and `relayer_fee_bps = 30`
the product `30 * 2 ^ 127 = 15 * 2 ^ 128` wraps to `0` modulo `2 ^ 128`
(release profile; a debug build would panic instead), so the computed fee is
`0` whereas the mathematical `floor(amount * 30 / 10000)` is far from `0`.
No `ArithmeticOverflow` is surfaced.  (The Stellar side similarly updates
`total_locked` with unchecked `i128` addition/subtraction, lines 147 and
316.) -/
theorem c5_calculate_fee_wraps :
    PolkadotBridgeComplete.calculate_fee
        (PolkadotBridgeComplete.new 0 1000 30) (2 ^ 127) = 0 ∧
      (2 ^ 127) * 30 / 10000 ≠ 0 :=
  ⟨rfl, by decide⟩

/-! ## Claim C7 -/

/-- C7: CONFIRMED.  Both ledgers' `verify_zk_proof` stubs compute the same
pure predicate of their four arguments: `false` when the proof blob is
shorter than 32 bytes or any of the three digests is the all-zero array,
`true` otherwise. -/
theorem c7_proof_gate_semantics (proof : List Nat) (c n r : Digest) :
    PolkadotBridgeComplete.verify_zk_proof proof c n r =
      StellarBridgeComplete.verify_zk_proof proof c n r ∧
    (PolkadotBridgeComplete.verify_zk_proof proof c n r = true ↔
      32 ≤ proof.length ∧ c ≠ zero32 ∧ n ≠ zero32 ∧ r ≠ zero32) := by
  refine ⟨rfl, ?_⟩
  unfold PolkadotBridgeComplete.verify_zk_proof
  split_ifs with h1 h2
  · simp only [Bool.false_eq_true, false_iff]
    intro hcon
    omega
  · simp only [Bool.false_eq_true, false_iff]
    rintro ⟨_, hc, hn, hr⟩
    rcases h2 with h2 | h2 | h2 <;> tauto
  · simp only [true_iff]
    exact ⟨by omega, fun e => h2 (Or.inl e),
      fun e => h2 (Or.inr (Or.inl e)), fun e => h2 (Or.inr (Or.inr e))⟩

/-! ## Claim C2 -/

/-- C2: counterexample to the claim as stated.  After a successful mint with
nullifier `d3`, the owner pauses the contract; a second `verify_and_mint`
presenting the same nullifier then fails with `ContractPaused`, not with
`NullifierUsed` as the claim requires (the pause guard runs before the
nullifier guard; likewise an amount below the minimum would yield
`AmountTooLow`).  No state changes and no second mint occurs, but the error
code differs. -/
theorem c2_second_call_paused_error_cex :
    ((PolkadotBridgeComplete.verify_and_mint hashConst 0
        (PolkadotBridgeComplete.new 0 1000 30) proof32 d2 d3 1 10000 0).bind
      (fun s1 => (PolkadotBridgeComplete.set_paused 0 s1 true).bind
        (fun s1p => PolkadotBridgeComplete.verify_and_mint hashConst 0 s1p
          proof32 d2 d3 1 10000 0)))
      = .error .ContractPaused ∧
    BridgeError.ContractPaused ≠ BridgeError.NullifierUsed :=
  ⟨rfl, by decide⟩

/-- C2 (amended): for every nullifier `n`, at most one successful
`verify_and_mint` (Mint Ledger) and at most one successful
`verify_and_unlock` (Lock Ledger) ever occurs with `n`.  After a successful
mint with `n`, every later `verify_and_mint` presenting `n` fails and leaves
the state unchanged — with error `NullifierUsed` whenever the earlier pause
and minimum-amount guards let the call through (a paused contract reports
`ContractPaused`, a too-low amount `AmountTooLow`, still without mutating
anything).  After a successful unlock with `n`, every later
`verify_and_unlock` presenting `n` fails with `NullifierUsed` (its nullifier
check comes first) and leaves the state unchanged. -/
theorem c2_no_double_spend :
    (∀ (hashR : Nat → Digest) (now : Nat)
       (s s1 s2 : PolkadotBridgeComplete) (proof : List Nat) (ch nh : Digest)
       (r amt sc : Nat),
       PolkadotBridgeComplete.verify_and_mint hashR now s proof ch nh r amt sc
         = .ok s1 →
       PolkadotBridgeComplete.Reach s1 s2 →
       ∀ (hashR' : Nat → Digest) (now' : Nat) (proof' : List Nat)
         (ch' : Digest) (r' amt' sc' : Nat),
         (∀ s3, PolkadotBridgeComplete.verify_and_mint hashR' now' s2 proof'
            ch' nh r' amt' sc' ≠ .ok s3) ∧
         PolkadotBridgeComplete.step
           (.verifyAndMint hashR' now' proof' ch' nh r' amt' sc') s2 = s2 ∧
         (s2.paused = false → ¬ amt' < s2.min_mint_amount →
           PolkadotBridgeComplete.verify_and_mint hashR' now' s2 proof' ch' nh
             r' amt' sc' = .error .NullifierUsed)) ∧
    (∀ (s : StellarBridgeComplete) (proof : List Nat) (ch nh rh : Digest)
       (out : StellarBridgeComplete × List Stellar.TokenTransfer)
       (s2 : StellarBridgeComplete),
       StellarBridgeComplete.verify_and_unlock s proof ch nh rh = .ok out →
       StellarBridgeComplete.Reach out.1 s2 →
       ∀ (proof' : List Nat) (ch' rh' : Digest),
         StellarBridgeComplete.verify_and_unlock s2 proof' ch' nh rh'
           = .error .NullifierUsed ∧
         StellarBridgeComplete.step (.verifyAndUnlock proof' ch' nh rh') s2
           = s2) := by
  constructor
  · intro hashR now s s1 s2 proof ch nh r amt sc hok hr hashR' now' proof'
      ch' r' amt' sc'
    have h1 : s1.nullifiers.getD nh false = true := by
      rw [PolkadotBridgeComplete.verify_and_mint_body_ok_nullifiers
        (PolkadotBridgeComplete.verify_and_mint_ok_iff.mp hok)]
      exact SMap.getD_insert_self _ nh true false
    have h2 := PolkadotBridgeComplete.reach_nullifier_mono nh hr h1
    refine ⟨fun s3 => PolkadotBridgeComplete.verify_and_mint_used_not_ok h2 s3,
      ?_, fun hp ha => PolkadotBridgeComplete.verify_and_mint_used_err hp ha h2⟩
    simp only [PolkadotBridgeComplete.step, PolkadotBridgeComplete.exec]
    split
    · rename_i s3 hx
      exact absurd hx (PolkadotBridgeComplete.verify_and_mint_used_not_ok h2 s3)
    · rfl
  · intro s proof ch nh rh out s2 hok hr proof' ch' rh'
    have h1 : out.1.nullifiers.contains nh = true := by
      rw [StellarBridgeComplete.verify_and_unlock_ok_nullifiers hok]
      simp [SMap.contains, SMap.get?_insert_self]
    have h2 := StellarBridgeComplete.reach_keeps_nullifier nh hr h1
    have he : StellarBridgeComplete.verify_and_unlock s2 proof' ch' nh rh'
        = .error .NullifierUsed :=
      StellarBridgeComplete.verify_and_unlock_used_err h2
    exact ⟨he, by simp [StellarBridgeComplete.step,
      StellarBridgeComplete.exec, he]⟩

/-- C2 witness: after the concrete successful mint producing `mintedDemo`
(nullifier `d3`), an immediate second mint presenting `d3` — with different
commitment hash, recipient and timestamp — fails with `NullifierUsed`. -/
theorem c2_witness :
    PolkadotBridgeComplete.verify_and_mint hashConst 5 mintedDemo proof32 d4
        d3 2 10000 0 = .error .NullifierUsed :=
  ((c2_no_double_spend.1 hashConst 0 (PolkadotBridgeComplete.new 0 1000 30)
      mintedDemo mintedDemo proof32 d2 d3 1 10000 0 rfl
      (PolkadotBridgeComplete.Reach.refl _) hashConst 5 proof32 d4 2 10000
      0).2.2) rfl (by decide)

/-! ## Claim C3 -/

/-- C3: CONFIRMED at the call boundary.  ink! (>= 4) sets the REVERT flag
when a message returns `Err`, so every storage write performed before the
error return is discarded: whenever `verify_and_mint` (or `burn_and_bridge`
or `transfer`) returns any error — including the `ArithmeticOverflow`s from
the fee subtraction, the balance addition and the `total_minted` addition —
the post-transaction state equals the pre-call state (nullifiers, balances,
totals and commitments alike).  The second conjunct records that the host
revert is doing real work: at the raw body level every error except
`ArithmeticOverflow` occurs before any storage write, while the
`ArithmeticOverflow` returns happen after the nullifier (and possibly the
balance) has been written and rely on the revert. -/
theorem c3_atomicity_on_error :
    (∀ (hashR : Nat → Digest) (now : Nat) (s : PolkadotBridgeComplete)
       (proof : List Nat) (ch nh : Digest) (r amt sc : Nat) (e : BridgeError),
       PolkadotBridgeComplete.verify_and_mint hashR now s proof ch nh r amt sc
         = .error e →
       PolkadotBridgeComplete.step
         (.verifyAndMint hashR now proof ch nh r amt sc) s = s) ∧
    (∀ (hashR : Nat → Digest) (now : Nat) (s sp : PolkadotBridgeComplete)
       (proof : List Nat) (ch nh : Digest) (r amt sc : Nat) (e : BridgeError),
       PolkadotBridgeComplete.verify_and_mint_body hashR now s proof ch nh
         r amt sc = .error (e, sp) →
       e ≠ .ArithmeticOverflow → sp = s) ∧
    (∀ (caller : Nat) (s : PolkadotBridgeComplete) (amt : Nat) (dest : Digest)
       (e : BridgeError),
       PolkadotBridgeComplete.burn_and_bridge caller s amt dest = .error e →
       PolkadotBridgeComplete.step (.burnAndBridge caller amt dest) s = s) ∧
    (∀ (caller : Nat) (s : PolkadotBridgeComplete) (ta amt : Nat)
       (e : BridgeError),
       PolkadotBridgeComplete.transfer caller s ta amt = .error e →
       PolkadotBridgeComplete.step (.transferCall caller ta amt) s = s) := by
  refine ⟨?_, ?_, ?_, ?_⟩
  · intro hashR now s proof ch nh r amt sc e h
    simp [PolkadotBridgeComplete.step, PolkadotBridgeComplete.exec, h]
  · intro hashR now s sp proof ch nh r amt sc e h hne
    simp only [PolkadotBridgeComplete.verify_and_mint_body] at h
    split_ifs at h <;> try (injection h with h2; exact (Prod.mk.injEq _ _ _ _ ▸ h2).2.symm)
    split at h <;> try exact Except.noConfusion h
    · injection h with h2
      exact absurd ((Prod.mk.injEq _ _ _ _ ▸ h2).1.symm) hne
    · split at h <;> try exact Except.noConfusion h
      · injection h with h2
        exact absurd ((Prod.mk.injEq _ _ _ _ ▸ h2).1.symm) hne
      · split at h <;> try exact Except.noConfusion h
        injection h with h2
        exact absurd ((Prod.mk.injEq _ _ _ _ ▸ h2).1.symm) hne
  · intro caller s amt dest e h
    simp [PolkadotBridgeComplete.step, PolkadotBridgeComplete.exec, h]
  · intro caller s ta amt e h
    simp [PolkadotBridgeComplete.step, PolkadotBridgeComplete.exec, h]

/-- C3 witness: on `new(1000, 20000)` (owner-set fee of 20000 basis points),
`verify_and_mint(amount = 10000)` passes the proof gate, writes the
nullifier, then fails the fee subtraction with `ArithmeticOverflow`; the
transaction leaves the state unchanged. -/
theorem c3_witness :
    PolkadotBridgeComplete.step
        (.verifyAndMint hashConst 0 proof32 d2 d3 1 10000 0)
        (PolkadotBridgeComplete.new 0 1000 20000) =
      PolkadotBridgeComplete.new 0 1000 20000 :=
  c3_atomicity_on_error.1 hashConst 0 (PolkadotBridgeComplete.new 0 1000 20000)
    proof32 d2 d3 1 10000 0 .ArithmeticOverflow rfl

/-! ## Claim C4 -/

/-- C4: counterexample to the claim as stated.  The claim covers
`lock_funds`, but the Lock Ledger (Stellar contract) has NO paused flag at
all — its storage (`DataKey`, lines 38-49) contains no pause entry and
`lock_funds` performs no pause check.  The only paused flag in the system is
the Mint Ledger's; with it set (`pausedDemo`), a `lock_funds` call on an
initialized Lock Ledger still succeeds and performs its token transfer
instead of failing with `ContractPaused`. -/
theorem c4_lock_funds_ignores_pause_cex :
    pausedDemo.paused = true ∧
    (StellarBridgeComplete.lock_funds authAll 7 0 stInit 1 2000 d2 1).map
        (fun out => out.2) =
      .ok [{ token := 9, source := 1, dest := 7, amount := 2000 }] :=
  ⟨rfl, rfl⟩

/-- C4 (amended): on the Mint Ledger the pause gate holds — whenever the
paused flag is true, `verify_and_mint` and `burn_and_bridge` fail with
`ContractPaused` and mutate no state.  (The Lock Ledger has no paused flag
and `lock_funds` never checks one.) -/
theorem c4_pause_gate_mint_ledger (s : PolkadotBridgeComplete)
    (hp : s.paused = true) :
    (∀ (hashR : Nat → Digest) (now : Nat) (proof : List Nat)
       (ch nh : Digest) (r amt sc : Nat),
       PolkadotBridgeComplete.verify_and_mint hashR now s proof ch nh r amt sc
         = .error .ContractPaused ∧
       PolkadotBridgeComplete.step
         (.verifyAndMint hashR now proof ch nh r amt sc) s = s) ∧
    (∀ (caller amt : Nat) (dest : Digest),
       PolkadotBridgeComplete.burn_and_bridge caller s amt dest
         = .error .ContractPaused ∧
       PolkadotBridgeComplete.step (.burnAndBridge caller amt dest) s = s) := by
  constructor
  · intro hashR now proof ch nh r amt sc
    have he : PolkadotBridgeComplete.verify_and_mint hashR now s proof ch nh
        r amt sc = .error .ContractPaused := by
      simp [PolkadotBridgeComplete.verify_and_mint,
        PolkadotBridgeComplete.verify_and_mint_body, hp]
    exact ⟨he, by simp [PolkadotBridgeComplete.step,
      PolkadotBridgeComplete.exec, he]⟩
  · intro caller amt dest
    have he : PolkadotBridgeComplete.burn_and_bridge caller s amt dest
        = .error .ContractPaused := by
      simp [PolkadotBridgeComplete.burn_and_bridge,
        PolkadotBridgeComplete.burn_and_bridge_body, hp]
    exact ⟨he, by simp [PolkadotBridgeComplete.step,
      PolkadotBridgeComplete.exec, he]⟩

/-- C4 witness: on the freshly-built-then-paused Mint Ledger, a mint and a
burn both fail with `ContractPaused`. -/
theorem c4_witness :
    PolkadotBridgeComplete.verify_and_mint hashConst 0 pausedDemo proof32
        d2 d3 1 10000 0 = .error .ContractPaused ∧
    PolkadotBridgeComplete.burn_and_bridge 1 pausedDemo 5 d2
      = .error .ContractPaused :=
  ⟨((c4_pause_gate_mint_ledger pausedDemo rfl).1 hashConst 0 proof32
      d2 d3 1 10000 0).1,
   ((c4_pause_gate_mint_ledger pausedDemo rfl).2 1 5 d2).1⟩

/-! ## Claim C6 -/

/-- C6: counterexample to the claim as stated.  On the Mint Ledger
`verify_and_mint` performs NO commitment-existence check: starting from a
fresh contract, a first mint records a commitment under hash `d2`, and a
second mint presenting the same hash `d2` (with a fresh nullifier `d4`)
ALSO succeeds — `get_commitment d2` is already present after the first call,
yet the second call returns success and `total_minted` doubles to 19940,
refuting "a second successful mint is never recorded under an
already-present commitment_hash". -/
theorem c6_mint_ignores_existing_commitment_cex :
    (PolkadotBridgeComplete.verify_and_mint hashConst 0
        (PolkadotBridgeComplete.new 0 1000 30) proof32 d2 d3 1 10000 0).map
      (fun s1 => (s1.get_commitment d2).isSome) = .ok true ∧
    ((PolkadotBridgeComplete.verify_and_mint hashConst 0
        (PolkadotBridgeComplete.new 0 1000 30) proof32 d2 d3 1 10000 0).bind
      (fun s1 => PolkadotBridgeComplete.verify_and_mint hashConst 0 s1
        proof32 d2 d4 1 10000 0)).map
      (fun s2 => s2.get_total_minted) = .ok 19940 :=
  ⟨rfl, rfl⟩

/-- C6 (amended): on the Lock Ledger the property holds — once the sender
authorization and minimum-amount guards pass, `lock_funds` with an
already-recorded `commitment_hash` always panics with "Commitment already
exists", performing no token transfer and no state change (the existence
check precedes the transfer).  On the Mint Ledger there is no such check: a
successful `verify_and_mint` unconditionally (over)writes the record under
its commitment hash. -/
theorem c6_commitment_uniqueness :
    (∀ (auth : Nat → Bool) (ca now : Nat) (s : StellarBridgeComplete)
       (sender : Nat) (amt : Int) (ch : Digest) (dest : Nat),
       auth sender = true →
       ¬ amt < s.min_lock_amount.getD 1000000 →
       s.commitments.contains ch = true →
       StellarBridgeComplete.lock_funds auth ca now s sender amt ch dest
         = .error .CommitmentExists ∧
       StellarBridgeComplete.step (.lockFunds auth ca now sender amt ch dest) s
         = s) ∧
    (∀ (hashR : Nat → Digest) (now : Nat) (s s' : PolkadotBridgeComplete)
       (proof : List Nat) (ch nh : Digest) (r amt sc : Nat),
       PolkadotBridgeComplete.verify_and_mint hashR now s proof ch nh r amt sc
         = .ok s' →
       ∃ rec : BridgeCommitment, rec.commitment_hash = ch ∧
         rec.status = .Minted ∧
         s'.commitments = s.commitments.insert ch rec) := by
  constructor
  · intro auth ca now s sender amt ch dest hauth hmin hch
    have he : StellarBridgeComplete.lock_funds auth ca now s sender amt ch dest
        = .error .CommitmentExists := by
      simp [StellarBridgeComplete.lock_funds, hauth, hmin, hch]
    exact ⟨he, by simp [StellarBridgeComplete.step,
      StellarBridgeComplete.exec, he]⟩
  · intro hashR now s s' proof ch nh r amt sc hok
    exact PolkadotBridgeComplete.verify_and_mint_body_ok_commitments
      (PolkadotBridgeComplete.verify_and_mint_ok_iff.mp hok)

/-- C6 witness: on the Lock Ledger holding commitment `d2`, a second
`lock_funds` with hash `d2` fails with the commitment-exists panic. -/
theorem c6_witness :
    StellarBridgeComplete.lock_funds authAll 7 0 stLocked 1 5000 d2 1
      = .error .CommitmentExists :=
  (c6_commitment_uniqueness.1 authAll 7 0 stLocked 1 5000 d2 1 rfl
    (by decide) rfl).1

/-! ## Claim C8 -/

/-- C8: counterexample to the claim as stated.  The refund deadline
`commitment.timestamp + 604800` (line 280) is computed in wrapping `u64`
arithmetic.  For a commitment locked at ledger time `2 ^ 64 - 1` the
deadline wraps to `604799`, so a refund at ledger time `2 ^ 64 - 1` — i.e.
0 seconds after the lock, far before `timestamp + 604800` — SUCCEEDS and
pays out the escrow, instead of failing with the timeout panic as the claim
requires. -/
theorem c8_refund_deadline_wraps_cex :
    (StellarBridgeComplete.refund authAll 7 (U64_MOD - 1) stLockedWrap d2).map
        (fun out => out.2) =
      .ok [{ token := 9, source := 7, dest := 1, amount := 5000 }] ∧
    U64_MOD - 1 < lockRecWrap.timestamp + 604800 :=
  ⟨rfl, by decide⟩

/-- C8 (amended): `refund` behaves as claimed whenever the deadline
computation does not wrap (`timestamp + 604800 < 2 ^ 64`, true for every
realistic ledger time) and the `total_locked` update stays inside the
`i128` range (true in reachable states): (1) success requires the stored
sender's authorization; (2) before the deadline it panics with the timeout
message; (3) at or after the deadline a non-`Locked` commitment panics with
the already-processed message; (4) on a `Locked` commitment it transfers
the escrowed amount back to the sender, sets the status to `Refunded` and
decreases `total_locked` by exactly the commitment's amount. -/
theorem c8_refund_behaviour :
    (∀ (auth : Nat → Bool) (ca now : Nat) (s : StellarBridgeComplete)
       (ch : Digest) (out : StellarBridgeComplete × List Stellar.TokenTransfer),
       StellarBridgeComplete.refund auth ca now s ch = .ok out →
       ∃ c, s.commitments.get? ch = some c ∧ auth c.sender = true) ∧
    (∀ (auth : Nat → Bool) (ca now : Nat) (s : StellarBridgeComplete)
       (ch : Digest) (c : Stellar.BridgeCommitment),
       s.commitments.get? ch = some c →
       auth c.sender = true →
       c.timestamp + 604800 < U64_MOD →
       now < c.timestamp + 604800 →
       StellarBridgeComplete.refund auth ca now s ch
         = .error .TimeoutNotReached) ∧
    (∀ (auth : Nat → Bool) (ca now : Nat) (s : StellarBridgeComplete)
       (ch : Digest) (c : Stellar.BridgeCommitment),
       s.commitments.get? ch = some c →
       auth c.sender = true →
       c.timestamp + 604800 < U64_MOD →
       c.timestamp + 604800 ≤ now →
       c.status ≠ .Locked →
       StellarBridgeComplete.refund auth ca now s ch
         = .error .CommitmentAlreadyProcessed) ∧
    (∀ (auth : Nat → Bool) (ca now : Nat) (s : StellarBridgeComplete)
       (ch : Digest) (c : Stellar.BridgeCommitment) (token : Nat),
       s.commitments.get? ch = some c →
       auth c.sender = true →
       c.timestamp + 604800 < U64_MOD →
       c.timestamp + 604800 ≤ now →
       c.status = .Locked →
       s.token_contract = some token →
       -(2 ^ 127) ≤ s.total_locked.getD 0 - c.amount →
       s.total_locked.getD 0 - c.amount < 2 ^ 127 →
       StellarBridgeComplete.refund auth ca now s ch = .ok
         ({ s with
            commitments := s.commitments.insert ch { c with status := .Refunded }
            total_locked := some (s.total_locked.getD 0 - c.amount) },
          [{ token := token, source := ca, dest := c.sender,
             amount := c.amount }])) := by
  refine ⟨?_, ?_, ?_, ?_⟩
  · intro auth ca now s ch out h
    simp only [StellarBridgeComplete.refund] at h
    split at h
    · exact Except.noConfusion h
    · rename_i c hget
      refine ⟨c, hget, ?_⟩
      split_ifs at h <;> first
        | exact Except.noConfusion h
        | (rename_i hauth _ _
           exact (Bool.not_eq_false _).mp fun hf => hauth hf)
  · intro auth ca now s ch c hget hauth hwrap hnow
    simp [StellarBridgeComplete.refund, hget, hauth,
      wrapU64_eq_self hwrap, hnow]
  · intro auth ca now s ch c hget hauth hwrap hle hstat
    have hnl : ¬ now < c.timestamp + 604800 := not_lt.mpr hle
    simp [StellarBridgeComplete.refund, hget, hauth,
      wrapU64_eq_self hwrap, hnl, hstat]
  · intro auth ca now s ch c token hget hauth hwrap hle hstat htok hlo hhi
    have hnl : ¬ now < c.timestamp + 604800 := not_lt.mpr hle
    have hw2 : wrapI128 (s.total_locked.getD 0 - c.amount)
        = s.total_locked.getD 0 - c.amount := wrapI128_eq_self hlo hhi
    simp [StellarBridgeComplete.refund, hget, hauth,
      wrapU64_eq_self hwrap, hnl, hstat, htok, hw2]

set_option maxRecDepth 8192 in
/-- C8 witness: the spec's own scenario — a 5000-unit lock at time 0 is
refunded at time 604800: the call succeeds, pays 5000 back to sender 1,
marks the commitment `Refunded` and drops `total_locked` from 5000 to 0. -/
theorem c8_witness :
    StellarBridgeComplete.refund authAll 7 604800 stLocked d2 = .ok
      ({ stLocked with
         commitments := stLocked.commitments.insert d2
           { lockRec with status := .Refunded }
         total_locked := some (stLocked.total_locked.getD 0 - lockRec.amount) },
       [{ token := 9, source := 7, dest := 1, amount := lockRec.amount }]) :=
  c8_refund_behaviour.2.2.2 authAll 7 604800 stLocked d2 lockRec 9 rfl rfl
    (by decide) (by decide) rfl rfl (by decide) (by decide)

/-! ## Claim C9 -/

/-- C9: counterexample to the opening clause of the claim as stated.  The
fee is NOT `floor(amount * feeBps / 10000)` for every amount: the unchecked
`u128` multiply wraps, so for `amount = 2 ^ 125` with `feeBps = 30` the
minted credit is `2 ^ 125 - (3 * 2 ^ 126) / 10000` (wrapped product
`30 * 2 ^ 125 mod 2 ^ 128 = 3 * 2 ^ 126`) rather than
`2 ^ 125 - (2 ^ 125 * 30) / 10000`. -/
theorem c9_fee_formula_wraps_cex :
    (PolkadotBridgeComplete.verify_and_mint hashConst 0
        (PolkadotBridgeComplete.new 0 1000 30) proof32 d2 d3 1 (2 ^ 125) 0).map
      (fun s' => s'.balance_of 1) = .ok (2 ^ 125 - 3 * 2 ^ 126 / 10000) ∧
    (2 : Nat) ^ 125 - 3 * 2 ^ 126 / 10000 ≠ 2 ^ 125 - 2 ^ 125 * 30 / 10000 :=
  ⟨rfl, by decide⟩

/-- C9 (amended): the fee equals `floor(amount * feeBps / 10000)` whenever
the product `amount * feeBps` stays below `2 ^ 128` (above that the
unchecked multiply wraps); the concrete happy path holds as stated: on a
fresh ledger with `min_mint_amount = 1000` and `relayer_fee_bps = 30`, a
mint of 10000 with a 32-byte proof and non-zero digests succeeds with
`balance_of(recipient) = 9970`, `is_nullifier_used(nullifier) = true` and
`get_total_minted() = 9970`; and with `relayer_fee_bps = 0` a successful
mint credits the full amount. -/
theorem c9_fee_and_happy_path :
    (∀ (s : PolkadotBridgeComplete) (amount : Nat),
       amount * s.relayer_fee_bps < U128_MOD →
       s.calculate_fee amount = amount * s.relayer_fee_bps / 10000) ∧
    (∀ (hashR : Nat → Digest) (now owner : Nat) (proof : List Nat)
       (C N : Digest) (R : Nat),
       proof.length = 32 → C ≠ zero32 → N ≠ zero32 → hashR R ≠ zero32 →
       (PolkadotBridgeComplete.verify_and_mint hashR now
           (PolkadotBridgeComplete.new owner 1000 30) proof C N R 10000 0).map
         (fun s' => (s'.balance_of R, s'.is_nullifier_used N,
           s'.get_total_minted)) = .ok (9970, true, 9970)) ∧
    (∀ (hashR : Nat → Digest) (now : Nat) (s s' : PolkadotBridgeComplete)
       (proof : List Nat) (ch nh : Digest) (r amount sc : Nat),
       s.relayer_fee_bps = 0 →
       PolkadotBridgeComplete.verify_and_mint hashR now s proof ch nh r
         amount sc = .ok s' →
       s'.balance_of r = s.balance_of r + amount) := by
  refine ⟨?_, ?_, ?_⟩
  · intro s amount h
    unfold PolkadotBridgeComplete.calculate_fee
    rw [Nat.mod_eq_of_lt h]
  · intro hashR now owner proof C N R hlen hC hN hR
    have hv : PolkadotBridgeComplete.verify_zk_proof proof C N (hashR R)
        = true := by
      simp [PolkadotBridgeComplete.verify_zk_proof, hlen, hC, hN, hR]
    have hfee : (PolkadotBridgeComplete.new owner 1000 30).calculate_fee 10000
        = 30 := by
      unfold PolkadotBridgeComplete.calculate_fee
      rw [show (PolkadotBridgeComplete.new owner 1000 30).relayer_fee_bps
        = 30 from rfl]
      simp [U128_MOD]
    have hsub : checkedSub128 10000
        ((PolkadotBridgeComplete.new owner 1000 30).calculate_fee 10000)
        = some 9970 := by
      rw [hfee]
      simp [checkedSub128]
    have hbal : checkedAdd128
        ((PolkadotBridgeComplete.new owner 1000 30).balances.getD R 0) 9970
        = some 9970 := by
      rw [show (PolkadotBridgeComplete.new owner 1000 30).balances.getD R 0
        = 0 from rfl]
      simp [checkedAdd128, U128_MOD]
    have htm : checkedAdd128
        (PolkadotBridgeComplete.new owner 1000 30).total_minted 9970
        = some 9970 := by
      rw [show (PolkadotBridgeComplete.new owner 1000 30).total_minted
        = 0 from rfl]
      simp [checkedAdd128, U128_MOD]
    have hp : (PolkadotBridgeComplete.new owner 1000 30).paused = false := rfl
    have ha : ¬ (10000 <
        (PolkadotBridgeComplete.new owner 1000 30).min_mint_amount) := by
      rw [show (PolkadotBridgeComplete.new owner 1000 30).min_mint_amount
        = 1000 from rfl]
      norm_num
    have hn : (PolkadotBridgeComplete.new owner 1000 30).nullifiers.getD N
        false = false := rfl
    rw [PolkadotBridgeComplete.verify_and_mint_success hp ha hn hv hsub
      hbal htm]
    simp only [Except.map, PolkadotBridgeComplete.balance_of,
      PolkadotBridgeComplete.is_nullifier_used,
      PolkadotBridgeComplete.get_total_minted, SMap.getD_insert_self]
  · intro hashR now s s' proof ch nh r amount sc hbps hok
    obtain ⟨m, nb, tm, hsub, hbal, htm, rfl⟩ :=
      PolkadotBridgeComplete.verify_and_mint_body_ok_spec
        (PolkadotBridgeComplete.verify_and_mint_ok_iff.mp hok)
    have hfee : s.calculate_fee amount = 0 := by
      simp [PolkadotBridgeComplete.calculate_fee, hbps]
    rw [hfee] at hsub
    obtain ⟨hm, -⟩ := checkedSub128_eq_some hsub
    obtain ⟨hnb, -⟩ := checkedAdd128_eq_some hbal
    simp [PolkadotBridgeComplete.balance_of, SMap.getD_insert_self, hnb, hm]

set_option maxRecDepth 8192 in
/-- C9 witness: the concrete happy-path instance with recipient 1,
commitment `d2`, nullifier `d3` and the constant non-zero recipient hash. -/
theorem c9_witness :
    (PolkadotBridgeComplete.verify_and_mint hashConst 0
        (PolkadotBridgeComplete.new 0 1000 30) proof32 d2 d3 1 10000 0).map
      (fun s' => (s'.balance_of 1, s'.is_nullifier_used d3,
        s'.get_total_minted)) = .ok (9970, true, 9970) :=
  c9_fee_and_happy_path.2.1 hashConst 0 0 proof32 d2 d3 1 (by decide)
    (by decide) (by decide) (by decide)

/-! ## Claim C10 -/

/-- C10: counterexample to the claim as stated.  The claim asserts a
self-transfer succeeds for EVERY `a ≤ b`; but when `b + a` exceeds the
`u128` range the checked credit overflows and the call returns
`ArithmeticOverflow` instead of succeeding.  Here `b = a = 2 ^ 127`. -/
theorem c10_self_transfer_overflow_cex :
    bigBalDemo.balances.getD 1 0 = 2 ^ 127 ∧ (2 : Nat) ^ 127 ≤ 2 ^ 127 ∧
      PolkadotBridgeComplete.transfer 1 bigBalDemo 1 (2 ^ 127) =
        .error .ArithmeticOverflow :=
  ⟨rfl, by decide, rfl⟩

/-- C10 (amended): provided additionally `b + a < 2 ^ 128`, a self-transfer
of `a ≤ b` returns success and leaves the caller's balance at `b + a`: the
credit is computed from the balance read before the debit and overwrites the
debit, so any self-transfer with `a > 0` strictly increases the balance. -/
theorem c10_self_transfer_credits_without_debit
    (s : PolkadotBridgeComplete) (c a : Nat)
    (hle : a ≤ s.balances.getD c 0)
    (hov : s.balances.getD c 0 + a < 2 ^ 128) :
    (PolkadotBridgeComplete.transfer c s c a).map
        (fun s' => s'.balances.getD c 0) = .ok (s.balances.getD c 0 + a) := by
  have hnlt : ¬ s.balances.getD c 0 < a := not_lt.mpr hle
  have hadd : checkedAdd128 (s.balances.getD c 0) a =
      some (s.balances.getD c 0 + a) := by
    unfold checkedAdd128
    rw [if_pos]
    exact hov
  unfold PolkadotBridgeComplete.transfer PolkadotBridgeComplete.transfer_body
  simp [hnlt, hadd, Except.map, SMap.getD_insert_self]

/-- C10 witness: account 1 holds 5 tokens and self-transfers all 5; the call
succeeds and its balance becomes 10. -/
theorem c10_witness :
    5 ≤ smallBalDemo.balances.getD 1 0 ∧
    smallBalDemo.balances.getD 1 0 + 5 < 2 ^ 128 ∧
    (PolkadotBridgeComplete.transfer 1 smallBalDemo 1 5).map
        (fun s' => s'.balances.getD 1 0) =
      .ok (smallBalDemo.balances.getD 1 0 + 5) :=
  ⟨by decide, by decide,
    c10_self_transfer_credits_without_debit smallBalDemo 1 5 (by decide) (by decide)⟩

end Insidr
